import Mathlib

/-!
Shallow embedding of the MoodTune backend (`backend.py`): the keyword-based
mood detector `MoodDetector.detect_emotion`, the static catalog lookup
`MusicRecommender.get_recommendations`, and the pipeline
`MoodTuneAPI.analyze_and_recommend`.  Text is modelled as `List Char`;
Python floats are modelled as exact rationals (`ℚ`), with Python's
`round(x, 2)` modelled as round-half-to-even at two decimal places.
Character classes follow the ASCII fragment of Python's `str.lower`,
`\w` (letter, digit or underscore) and `\s`.
-/

set_option maxHeartbeats 1000000

namespace MoodTune

/-- Python regex `\w` on the ASCII range: a letter, a digit, or an underscore. -/
def isWordChar (c : Char) : Bool := c.isAlphanum || c == '_'

/-- Embedding of `text.lower()` (backend.py line 73). -/
def lowerText (t : List Char) : List Char := t.map Char.toLower

/-- Embedding of `re.sub(r'[^\w\s]', ' ', text_lower)` (backend.py line 76):
every character that is neither a word character nor whitespace is replaced
by a single space. -/
def stripPunct (t : List Char) : List Char :=
  t.map (fun c => if isWordChar c || c.isWhitespace then c else ' ')

/-- The normalized text used for keyword matching: lowercase, then punctuation
replaced by spaces. -/
def text_clean (t : List Char) : List Char := stripPunct (lowerText t)

/-- The three weighted keyword tiers of one mood (backend.py lines 20-66). -/
structure KeywordSets where
  primary : List String
  secondary : List String
  intensity : List String
deriving DecidableEq

/-- The `self.emotion_keywords` dictionary of `MoodDetector.__init__`, in
declaration (= Python dict insertion) order. -/
def emotion_keywords : List (String × KeywordSets) :=
  [ ("happy",
     { primary := ["happy", "joy", "excited", "great", "amazing", "wonderful", "cheerful", "delighted"],
       secondary := ["good", "nice", "pleased", "satisfied", "content", "upbeat"],
       intensity := ["ecstatic", "thrilled", "overjoyed", "euphoric"] }),
    ("sad",
     { primary := ["sad", "depressed", "down", "lonely", "heartbroken", "melancholy", "miserable"],
       secondary := ["blue", "gloomy", "disappointed", "hurt", "upset"],
       intensity := ["devastated", "crushed", "despondent", "hopeless"] }),
    ("energetic",
     { primary := ["energetic", "pumped", "hyper", "motivated", "active", "powerful"],
       secondary := ["workout", "exercise", "run", "dance", "move"],
       intensity := ["explosive", "unstoppable", "charged", "electrified"] }),
    ("calm",
     { primary := ["calm", "peaceful", "relax", "chill", "tranquil", "serene"],
       secondary := ["meditate", "zen", "quiet", "still", "composed"],
       intensity := ["blissful", "centered", "harmonious"] }),
    ("romantic",
     { primary := ["love", "romantic", "crush", "date", "relationship", "tender"],
       secondary := ["affection", "caring", "devoted", "intimate"],
       intensity := ["passionate", "smitten", "infatuated", "adoring"] }),
    ("angry",
     { primary := ["angry", "mad", "furious", "rage", "frustrated", "annoyed"],
       secondary := ["irritated", "bothered", "pissed", "livid"],
       intensity := ["enraged", "incensed", "outraged", "seething"] }),
    ("anxious",
     { primary := ["anxious", "nervous", "worried", "stressed", "tense", "overwhelmed"],
       secondary := ["uneasy", "restless", "concerned", "troubled"],
       intensity := ["panicked", "terrified", "frantic", "distressed"] }),
    ("nostalgic",
     { primary := ["nostalgic", "memories", "remember", "past", "throwback", "reminisce"],
       secondary := ["missing", "longing", "sentimental", "wistful"],
       intensity := ["yearning", "pining"] }),
    ("confident",
     { primary := ["confident", "powerful", "strong", "fierce", "unstoppable", "boss"],
       secondary := ["capable", "determined", "bold", "assured"],
       intensity := ["invincible", "dominant", "fearless", "triumphant"] }) ]

/-- One tier's contribution to a mood's score: for each keyword of the tier
that occurs as a substring of the normalized text (Python `keyword in
text_clean`), add the tier's weight (backend.py lines 84-97). -/
def tierScore (weight : Nat) (keywords : List String) (tc : List Char) : Nat :=
  keywords.foldl (fun s k => if k.toList <:+: tc then s + weight else s) 0

/-- A single mood's accumulated score: primary keywords weigh 3, secondary 1,
intensity 5. -/
def moodScore (tc : List Char) (ks : KeywordSets) : Nat :=
  tierScore 3 ks.primary tc + tierScore 1 ks.secondary tc + tierScore 5 ks.intensity tc

/-- The `scores` dictionary of `detect_emotion`, as an association list in
mood declaration order. -/
def moodScores (t : List Char) : List (String × Nat) :=
  emotion_keywords.map (fun p => (p.1, moodScore (text_clean t) p.2))

/-- Embedding of Python's `max(scores, key=scores.get)` over a non-empty
association list: the fold keeps the current best on ties, so the first
element attaining the maximum wins. -/
def maxByFirst (x : String × Nat) (xs : List (String × Nat)) : String × Nat :=
  xs.foldl (fun b y => if b.2 < y.2 then y else b) x

/-- Round-half-to-even to an integer, the tie rule of Python's builtin
`round` (floats are modelled as exact rationals). -/
def roundHalfEven (q : ℚ) : ℤ :=
  if q - ⌊q⌋ < 1/2 then ⌊q⌋
  else if 1/2 < q - ⌊q⌋ then ⌊q⌋ + 1
  else if ⌊q⌋ % 2 = 0 then ⌊q⌋ else ⌊q⌋ + 1

/-- Embedding of Python's `round(x, 2)`. -/
def round2 (q : ℚ) : ℚ := (roundHalfEven (q * 100) : ℚ) / 100

/-- The dictionary returned by `detect_emotion`. -/
structure EmotionResult where
  emotion : String
  confidence : ℚ
  intensity : String
  all_scores : List (String × Nat)
deriving DecidableEq

/-- Embedding of `MoodDetector.detect_emotion` (backend.py lines 68-130). -/
def detect_emotion (t : List Char) : EmotionResult :=
  let scores := moodScores t
  if scores.all (fun p => p.2 == 0) then
    { emotion := "calm", confidence := 1/2, intensity := "low", all_scores := scores }
  else
    match scores with
    | [] => { emotion := "calm", confidence := 1/2, intensity := "low", all_scores := scores }
    | x :: xs =>
      let m := maxByFirst x xs
      let max_score := m.2
      let total_score : Nat := (x :: xs).foldl (fun a p => a + p.2) 0
      let confidence : ℚ := min ((max_score : ℚ) / ((total_score : ℚ) + (1 : ℚ))) (1 : ℚ)
      { emotion := m.1,
        confidence := round2 confidence,
        intensity :=
          if max_score ≥ 5 then "high"
          else if max_score ≥ 3 then "medium"
          else "low",
        all_scores := scores }

/-- Specification-side helper: the maximum accumulated score over all moods. -/
def maxScore (t : List Char) : Nat :=
  match moodScores t with
  | [] => 0
  | x :: xs => xs.foldl (fun a y => max a y.2) x.2

/-- Specification-side helper: the sum of all mood scores. -/
def totalScore (t : List Char) : Nat :=
  (moodScores t).foldl (fun a p => a + p.2) 0

/-- A static song record of the catalog (backend.py lines 139-563). -/
structure Song where
  title : String
  artist : String
  year : Nat
  genre : String
  energy : ℚ
  valence : ℚ
  tags : List String
deriving DecidableEq

/-- The `self.song_database` dictionary of `MusicRecommender.__init__`, in
declaration (= Python dict insertion) order. -/
def song_database : List (String × List Song) :=
  [ ("happy",
     [ { title := "Good Vibrations", artist := "The Beach Boys", year := 1966,
         genre := "Pop", energy := 0.8, valence := 0.9,
         tags := ["Classic", "Feel-good", "Upbeat"] },
       { title := "Walking on Sunshine", artist := "Katrina and the Waves", year := 1983,
         genre := "Pop", energy := 0.9, valence := 0.95,
         tags := ["80s", "Pop", "Energetic"] },
       { title := "Happy", artist := "Pharrell Williams", year := 2013,
         genre := "Pop", energy := 0.8, valence := 0.9,
         tags := ["Pop", "Dance", "Positive"] },
       { title := "Don\x27t Stop Me Now", artist := "Queen", year := 1978,
         genre := "Rock", energy := 0.95, valence := 0.85,
         tags := ["Rock", "Classic", "Powerful"] },
       { title := "I Wanna Dance with Somebody", artist := "Whitney Houston", year := 1987,
         genre := "Pop", energy := 0.9, valence := 0.9,
         tags := ["Pop", "Dance", "80s"] } ]),
    ("sad",
     [ { title := "Someone Like You", artist := "Adele", year := 2011,
         genre := "Pop", energy := 0.3, valence := 0.2,
         tags := ["Ballad", "Emotional", "Piano"] },
       { title := "The Night We Met", artist := "Lord Huron", year := 2015,
         genre := "Indie", energy := 0.4, valence := 0.3,
         tags := ["Indie", "Melancholic", "Acoustic"] },
       { title := "Hurt", artist := "Johnny Cash", year := 2002,
         genre := "Country", energy := 0.3, valence := 0.15,
         tags := ["Country", "Deep", "Emotional"] },
       { title := "Mad World", artist := "Gary Jules", year := 2001,
         genre := "Alternative", energy := 0.2, valence := 0.2,
         tags := ["Alternative", "Somber", "Reflective"] },
       { title := "Fix You", artist := "Coldplay", year := 2005,
         genre := "Rock", energy := 0.5, valence := 0.4,
         tags := ["Rock", "Healing", "Hope"] } ]),
    ("energetic",
     [ { title := "Eye of the Tiger", artist := "Survivor", year := 1982,
         genre := "Rock", energy := 0.95, valence := 0.75,
         tags := ["Rock", "Motivational", "80s"] },
       { title := "Lose Yourself", artist := "Eminem", year := 2002,
         genre := "Hip-Hop", energy := 0.9, valence := 0.7,
         tags := ["Hip-Hop", "Intense", "Powerful"] },
       { title := "Thunderstruck", artist := "AC/DC", year := 1990,
         genre := "Rock", energy := 0.95, valence := 0.8,
         tags := ["Rock", "High-energy", "Classic"] },
       { title := "Till I Collapse", artist := "Eminem ft. Nate Dogg", year := 2002,
         genre := "Hip-Hop", energy := 0.9, valence := 0.75,
         tags := ["Hip-Hop", "Workout", "Intense"] },
       { title := "Pump It", artist := "The Black Eyed Peas", year := 2006,
         genre := "Hip-Hop", energy := 0.95, valence := 0.8,
         tags := ["Hip-Hop", "Dance", "Party"] } ]),
    ("calm",
     [ { title := "Weightless", artist := "Marconi Union", year := 2011,
         genre := "Ambient", energy := 0.1, valence := 0.6,
         tags := ["Ambient", "Meditation", "Peaceful"] },
       { title := "Clair de Lune", artist := "Claude Debussy", year := 1905,
         genre := "Classical", energy := 0.2, valence := 0.7,
         tags := ["Classical", "Piano", "Serene"] },
       { title := "Breathe Me", artist := "Sia", year := 2004,
         genre := "Alternative", energy := 0.3, valence := 0.5,
         tags := ["Ambient", "Gentle", "Soothing"] },
       { title := "Holocene", artist := "Bon Iver", year := 2011,
         genre := "Indie", energy := 0.3, valence := 0.6,
         tags := ["Indie", "Atmospheric", "Calm"] },
       { title := "Intro", artist := "The xx", year := 2009,
         genre := "Indie", energy := 0.25, valence := 0.65,
         tags := ["Indie", "Minimal", "Dreamy"] } ]),
    ("romantic",
     [ { title := "Perfect", artist := "Ed Sheeran", year := 2017,
         genre := "Pop", energy := 0.4, valence := 0.8,
         tags := ["Pop", "Love", "Ballad"] },
       { title := "All of Me", artist := "John Legend", year := 2013,
         genre := "R&B", energy := 0.35, valence := 0.75,
         tags := ["R&B", "Piano", "Tender"] },
       { title := "Thinking Out Loud", artist := "Ed Sheeran", year := 2014,
         genre := "Pop", energy := 0.5, valence := 0.8,
         tags := ["Pop", "Romantic", "Sweet"] },
       { title := "Can\x27t Help Falling in Love", artist := "Elvis Presley", year := 1961,
         genre := "Pop", energy := 0.3, valence := 0.85,
         tags := ["Classic", "Timeless", "Love"] },
       { title := "At Last", artist := "Etta James", year := 1960,
         genre := "Jazz", energy := 0.4, valence := 0.9,
         tags := ["Jazz", "Soulful", "Classic"] } ]),
    ("angry",
     [ { title := "Break Stuff", artist := "Limp Bizkit", year := 1999,
         genre := "Nu-Metal", energy := 0.95, valence := 0.3,
         tags := ["Nu-Metal", "Aggressive", "Raw"] },
       { title := "Killing in the Name", artist := "Rage Against the Machine", year := 1992,
         genre := "Rock", energy := 0.9, valence := 0.25,
         tags := ["Rock", "Protest", "Intense"] },
       { title := "In the End", artist := "Linkin Park", year := 2000,
         genre := "Rock", energy := 0.8, valence := 0.35,
         tags := ["Rock", "Emotional", "Powerful"] },
       { title := "Last Resort", artist := "Papa Roach", year := 2000,
         genre := "Nu-Metal", energy := 0.85, valence := 0.3,
         tags := ["Nu-Metal", "Intense", "Cathartic"] },
       { title := "Bodies", artist := "Drowning Pool", year := 2001,
         genre := "Metal", energy := 0.95, valence := 0.4,
         tags := ["Metal", "Aggressive", "Heavy"] } ]),
    ("anxious",
     [ { title := "Breathe", artist := "Pink Floyd", year := 1973,
         genre := "Rock", energy := 0.4, valence := 0.5,
         tags := ["Rock", "Calming", "Progressive"] },
       { title := "Stressed Out", artist := "Twenty One Pilots", year := 2015,
         genre := "Alternative", energy := 0.6, valence := 0.4,
         tags := ["Alternative", "Relatable", "Modern"] },
       { title := "Everybody Hurts", artist := "R.E.M.", year := 1992,
         genre := "Rock", energy := 0.3, valence := 0.45,
         tags := ["Rock", "Comforting", "Supportive"] },
       { title := "The Scientist", artist := "Coldplay", year := 2002,
         genre := "Alternative", energy := 0.4, valence := 0.5,
         tags := ["Alternative", "Reflective", "Soothing"] },
       { title := "Let It Be", artist := "The Beatles", year := 1970,
         genre := "Rock", energy := 0.4, valence := 0.6,
         tags := ["Classic", "Reassuring", "Peaceful"] } ]),
    ("nostalgic",
     [ { title := "Summer of \x2769", artist := "Bryan Adams", year := 1984,
         genre := "Rock", energy := 0.75, valence := 0.7,
         tags := ["Rock", "Classic", "Throwback"] },
       { title := "Wonderwall", artist := "Oasis", year := 1995,
         genre := "Britpop", energy := 0.6, valence := 0.65,
         tags := ["Britpop", "90s", "Iconic"] },
       { title := "Dream On", artist := "Aerosmith", year := 1973,
         genre := "Rock", energy := 0.7, valence := 0.6,
         tags := ["Rock", "Classic", "Timeless"] },
       { title := "Tears in Heaven", artist := "Eric Clapton", year := 1992,
         genre := "Ballad", energy := 0.3, valence := 0.4,
         tags := ["Ballad", "Emotional", "Classic"] },
       { title := "The Sound of Silence", artist := "Simon & Garfunkel", year := 1964,
         genre := "Folk", energy := 0.3, valence := 0.5,
         tags := ["Folk", "60s", "Reflective"] } ]),
    ("confident",
     [ { title := "Stronger", artist := "Kanye West", year := 2007,
         genre := "Hip-Hop", energy := 0.85, valence := 0.75,
         tags := ["Hip-Hop", "Powerful", "Motivational"] },
       { title := "Roar", artist := "Katy Perry", year := 2013,
         genre := "Pop", energy := 0.8, valence := 0.8,
         tags := ["Pop", "Empowering", "Uplifting"] },
       { title := "We Will Rock You", artist := "Queen", year := 1977,
         genre := "Rock", energy := 0.9, valence := 0.75,
         tags := ["Rock", "Anthem", "Powerful"] },
       { title := "Survivor", artist := "Destiny\x27s Child", year := 2001,
         genre := "R&B", energy := 0.75, valence := 0.8,
         tags := ["R&B", "Empowering", "Strong"] },
       { title := "Lose Control", artist := "Meduza, Becky Hill", year := 2019,
         genre := "Dance", energy := 0.9, valence := 0.85,
         tags := ["Dance", "Confident", "Energetic"] } ]) ]

/-- Python dictionary lookup `self.song_database[mood]` as an association-list
search (Python dicts preserve insertion order; `find?` returns the first
matching key, and keys are distinct). -/
def dictGet (mood : String) : Option (List Song) :=
  (song_database.find? (fun p => p.1 == mood)).map Prod.snd

/-- Embedding of `MusicRecommender.get_recommendations` (backend.py lines
565-570): `self.song_database.get(mood, self.song_database['calm'])[:limit]`. -/
def get_recommendations (mood : String) (limit : Nat) : List Song :=
  ((dictGet mood).getD ((dictGet "calm").getD [])).take limit

/-- Embedding of `MusicRecommender.get_all_moods`: the catalog's keys in
declaration order. -/
def get_all_moods : List String := song_database.map Prod.fst

/-- The dictionary returned by `MoodTuneAPI.analyze_and_recommend`. -/
structure RecommendationResult where
  user_input : List Char
  detected_mood : String
  confidence : ℚ
  intensity : String
  recommendations : List Song
  emotion_scores : List (String × Nat)
deriving DecidableEq

/-- Embedding of `MoodTuneAPI.analyze_and_recommend` (backend.py lines
588-608). -/
def analyze_and_recommend (user_text : List Char) (num_songs : Nat) :
    RecommendationResult :=
  let emotion_result := detect_emotion user_text
  let recommendations := get_recommendations emotion_result.emotion num_songs
  { user_input := user_text,
    detected_mood := emotion_result.emotion,
    confidence := emotion_result.confidence,
    intensity := emotion_result.intensity,
    recommendations := recommendations,
    emotion_scores := emotion_result.all_scores }

attribute [local semireducible] Rat.add Rat.mul Rat.inv Rat.sub Rat.ofScientific

/-! ### Helper lemmas about the first-maximum fold -/

theorem maxByFirst_cons (x y : String × Nat) (ys : List (String × Nat)) :
    maxByFirst x (y :: ys) = maxByFirst (if x.2 < y.2 then y else x) ys := rfl

theorem maxByFirst_mem (x : String × Nat) (xs : List (String × Nat)) :
    maxByFirst x xs ∈ x :: xs := by
  induction xs generalizing x with
  | nil => exact List.mem_singleton.mpr rfl
  | cons y ys ih =>
    rw [maxByFirst_cons]
    rcases List.mem_cons.mp (ih (if x.2 < y.2 then y else x)) with h | h
    · rw [h]
      by_cases hxy : x.2 < y.2
      · rw [if_pos hxy]
        exact List.mem_cons_of_mem x (List.mem_cons_self y ys)
      · rw [if_neg hxy]
        exact List.mem_cons_self x (y :: ys)
    · exact List.mem_cons_of_mem x (List.mem_cons_of_mem y h)

theorem le_maxByFirst_snd (x : String × Nat) (xs : List (String × Nat)) :
    x.2 ≤ (maxByFirst x xs).2 := by
  induction xs generalizing x with
  | nil => exact Nat.le_refl _
  | cons y ys ih =>
    rw [maxByFirst_cons]
    by_cases hxy : x.2 < y.2
    · rw [if_pos hxy]
      exact Nat.le_trans (Nat.le_of_lt hxy) (ih y)
    · rw [if_neg hxy]
      exact ih x

theorem maxByFirst_snd (x : String × Nat) (xs : List (String × Nat)) :
    (maxByFirst x xs).2 = xs.foldl (fun a y => max a y.2) x.2 := by
  induction xs generalizing x with
  | nil => rfl
  | cons y ys ih =>
    rw [maxByFirst_cons, List.foldl_cons]
    by_cases hxy : x.2 < y.2
    · rw [if_pos hxy, ih y, Nat.max_eq_right (Nat.le_of_lt hxy)]
    · rw [if_neg hxy, ih x, Nat.max_eq_left (Nat.le_of_not_lt hxy)]

theorem find?_maxByFirst (xs : List (String × Nat)) : ∀ x : String × Nat,
    (x :: xs).find? (fun y => y.2 == (maxByFirst x xs).2)
      = some (maxByFirst x xs) := by
  induction xs with
  | nil =>
    intro x
    simp [maxByFirst]
  | cons y ys ih =>
    intro x
    rw [maxByFirst_cons]
    by_cases hxy : x.2 < y.2
    · rw [if_pos hxy]
      have hle : y.2 ≤ (maxByFirst y ys).2 := le_maxByFirst_snd y ys
      have hx : (x.2 == (maxByFirst y ys).2) = false := by
        simp only [beq_eq_false_iff_ne, ne_eq]
        omega
      rw [List.find?_cons_of_neg _ (by simp [hx]), ih y]
    · rw [if_neg hxy]
      by_cases hx : x.2 = (maxByFirst x ys).2
      · have hhead := ih x
        rw [List.find?_cons_of_pos _ (by simp [hx])] at hhead
        have hmx : maxByFirst x ys = x := (Option.some_injective _ hhead).symm
        rw [hmx] at hx ⊢
        rw [List.find?_cons_of_pos _ (by simp)]
      · have hle : x.2 ≤ (maxByFirst x ys).2 := le_maxByFirst_snd x ys
        have hlt : x.2 < (maxByFirst x ys).2 := Nat.lt_of_le_of_ne hle hx
        have htail := ih x
        rw [List.find?_cons_of_neg _ (by simp; omega)] at htail
        rw [List.find?_cons_of_neg _ (by simp; omega),
            List.find?_cons_of_neg _ (by simp; omega)]
        exact htail

/-! ### Equation lemmas for `detect_emotion` -/

theorem moodScores_ne_nil (t : List Char) : moodScores t ≠ [] := by
  simp [moodScores, emotion_keywords]

theorem detect_emotion_of_all_zero (t : List Char)
    (h : (moodScores t).all (fun p => p.2 == 0)) :
    detect_emotion t =
      { emotion := "calm", confidence := 1/2, intensity := "low",
        all_scores := moodScores t } := by
  unfold detect_emotion
  rw [if_pos h]

theorem detect_emotion_of_ne_zero (t : List Char) (x : String × Nat)
    (xs : List (String × Nat)) (hs : moodScores t = x :: xs)
    (h : ¬ (moodScores t).all (fun p => p.2 == 0)) :
    detect_emotion t =
      { emotion := (maxByFirst x xs).1,
        confidence := round2 (min (((maxByFirst x xs).2 : ℚ) /
          ((((x :: xs).foldl (fun a p => a + p.2) 0 : Nat) : ℚ) + 1)) 1),
        intensity :=
          if (maxByFirst x xs).2 ≥ 5 then "high"
          else if (maxByFirst x xs).2 ≥ 3 then "medium"
          else "low",
        all_scores := x :: xs } := by
  unfold detect_emotion
  rw [hs] at h ⊢
  rw [if_neg h]

theorem maxScore_eq (t : List Char) (x : String × Nat)
    (xs : List (String × Nat)) (hs : moodScores t = x :: xs) :
    maxScore t = (maxByFirst x xs).2 := by
  unfold maxScore
  rw [hs, maxByFirst_snd]

theorem totalScore_eq (t : List Char) (x : String × Nat)
    (xs : List (String × Nat)) (hs : moodScores t = x :: xs) :
    totalScore t = (x :: xs).foldl (fun a p => a + p.2) 0 := by
  unfold totalScore
  rw [hs]

/-! ### Claims -/

/-- C1: for every text in which at least one keyword matches (some mood's
accumulated score is non-zero), `detect_emotion` returns the mood whose
accumulated score is the maximum, and when several moods share the maximum
score the returned mood is the first of them in the declaration order of the
mood vocabulary (happy, sad, energetic, calm, romantic, angry, anxious,
nostalgic, confident): the first entry of the score list (which is in
declaration order) whose score equals the maximum is exactly the returned
mood paired with the maximum score, so the selection is deterministic. -/
theorem C1_first_max_selection (t : List Char)
    (h : ¬ (moodScores t).all (fun p => p.2 == 0)) :
    (moodScores t).find? (fun p => p.2 == maxScore t)
      = some ((detect_emotion t).emotion, maxScore t) := by
  cases hs : moodScores t with
  | nil => exact absurd hs (moodScores_ne_nil t)
  | cons x xs =>
    rw [detect_emotion_of_ne_zero t x xs hs h, maxScore_eq t x xs hs]
    rw [Prod.mk.eta]
    exact find?_maxByFirst xs x

/-- Witness for C1 at the concrete text "happy and sad": the happy score (3)
and the sad score (3) tie, and the first mood in declaration order wins. -/
theorem C1_first_max_selection_witness :
    (moodScores "happy and sad".toList).find?
        (fun p => p.2 == maxScore "happy and sad".toList)
      = some ((detect_emotion "happy and sad".toList).emotion,
              maxScore "happy and sad".toList) :=
  C1_first_max_selection "happy and sad".toList (by decide)

/-- C3: for every text in which no keyword of any mood matches (in particular
the empty string), `detect_emotion` returns mood calm, confidence exactly
0.5, intensity low, and an all-scores mapping in which every mood maps to 0;
the function is total, so no error is raised. -/
theorem C3_zero_default (t : List Char)
    (h : (moodScores t).all (fun p => p.2 == 0)) :
    detect_emotion t =
      { emotion := "calm", confidence := 1/2, intensity := "low",
        all_scores := moodScores t }
    ∧ ∀ p ∈ moodScores t, p.2 = 0 := by
  refine ⟨detect_emotion_of_all_zero t h, ?_⟩
  intro p hp
  simpa using List.all_eq_true.mp h p hp

/-- Witness for C3 at the empty string. -/
theorem C3_zero_default_witness :
    detect_emotion "".toList =
      { emotion := "calm", confidence := 1/2, intensity := "low",
        all_scores := moodScores "".toList }
    ∧ ∀ p ∈ moodScores "".toList, p.2 = 0 :=
  C3_zero_default "".toList (by decide)

/-- C8: for every text whose maximum accumulated score is non-zero, the
intensity returned by `detect_emotion` is exactly determined by the winning
score: high when it is at least 5, medium when it is at least 3 and less
than 5, and low when it is less than 3. -/
theorem C8_intensity_banding (t : List Char)
    (h : ¬ (moodScores t).all (fun p => p.2 == 0)) :
    (detect_emotion t).intensity =
      if maxScore t ≥ 5 then "high"
      else if maxScore t ≥ 3 then "medium"
      else "low" := by
  cases hs : moodScores t with
  | nil => exact absurd hs (moodScores_ne_nil t)
  | cons x xs =>
    rw [detect_emotion_of_ne_zero t x xs hs h, maxScore_eq t x xs hs]

/-- Witness for C8: the text "happy" has winning score 3, giving medium
intensity. -/
theorem C8_intensity_banding_witness :
    (detect_emotion "happy".toList).intensity =
      if maxScore "happy".toList ≥ 5 then "high"
      else if maxScore "happy".toList ≥ 3 then "medium"
      else "low" :=
  C8_intensity_banding "happy".toList (by decide)

/-! ### Bounds for the rounding function -/

theorem le_roundHalfEven (q : ℚ) (n : ℤ) (h : (n : ℚ) ≤ q) :
    n ≤ roundHalfEven q := by
  have hfl : n ≤ ⌊q⌋ := Int.le_floor.mpr h
  unfold roundHalfEven
  split
  · exact hfl
  · split
    · omega
    · split <;> omega

theorem roundHalfEven_le (q : ℚ) (n : ℤ) (h : q ≤ (n : ℚ)) :
    roundHalfEven q ≤ n := by
  have hfl : ⌊q⌋ ≤ n := by
    have h1 : (⌊q⌋ : ℚ) ≤ (n : ℚ) := le_trans (Int.floor_le q) h
    exact_mod_cast h1
  have hfl2 : (⌊q⌋ : ℚ) ≤ q := Int.floor_le q
  unfold roundHalfEven
  split
  · exact hfl
  · rename_i h1
    split
    · rename_i h2
      have : (⌊q⌋ : ℚ) + 1/2 < q := by linarith
      have hlt : ⌊q⌋ < n := by
        by_contra hcon
        have : n = ⌊q⌋ := by omega
        subst this
        have : q ≤ (⌊q⌋ : ℚ) := h
        linarith
      omega
    · rename_i h2
      have heq : q - ⌊q⌋ = 1/2 := by linarith
      have hlt : ⌊q⌋ < n := by
        by_contra hcon
        have : n = ⌊q⌋ := by omega
        subst this
        have : q ≤ (⌊q⌋ : ℚ) := h
        linarith
      split <;> omega

theorem round2_nonneg (q : ℚ) (h : 0 ≤ q) : 0 ≤ round2 q := by
  unfold round2
  have h1 : (0 : ℤ) ≤ roundHalfEven (q * 100) := by
    refine le_roundHalfEven _ 0 ?_
    push_cast
    linarith
  apply div_nonneg _ (by norm_num)
  exact_mod_cast h1

theorem round2_le_one (q : ℚ) (h : q ≤ 1) : round2 q ≤ 1 := by
  unfold round2
  have h1 : roundHalfEven (q * 100) ≤ 100 := by
    refine roundHalfEven_le _ 100 ?_
    push_cast
    linarith
  rw [div_le_one (by norm_num)]
  exact_mod_cast h1

/-- C2: for every text with a non-zero maximum score, the confidence returned
by `detect_emotion` equals winning_score / (sum_of_all_mood_scores + 1),
clamped to at most 1 and rounded to 2 decimal places (floats are modelled as
exact rationals, with Python's round-half-to-even tie rule); and for every
text whatsoever, including the zero-score default case, the returned
confidence lies in [0, 1]. -/
theorem C2_confidence_formula_and_bounds (t : List Char) :
    (¬ (moodScores t).all (fun p => p.2 == 0) →
      (detect_emotion t).confidence =
        round2 (min ((maxScore t : ℚ) / ((totalScore t : ℚ) + 1)) 1))
    ∧ 0 ≤ (detect_emotion t).confidence
    ∧ (detect_emotion t).confidence ≤ 1 := by
  by_cases h : (moodScores t).all (fun p => p.2 == 0)
  · rw [detect_emotion_of_all_zero t h]
    exact ⟨fun hc => absurd h hc, by norm_num, by norm_num⟩
  · cases hs : moodScores t with
    | nil => exact absurd hs (moodScores_ne_nil t)
    | cons x xs =>
      rw [detect_emotion_of_ne_zero t x xs hs h]
      constructor
      · intro _
        rw [maxScore_eq t x xs hs, totalScore_eq t x xs hs]
      · have hq0 : (0 : ℚ) ≤ min (((maxByFirst x xs).2 : ℚ) /
            ((((x :: xs).foldl (fun a p => a + p.2) 0 : Nat) : ℚ) + 1)) 1 := by
          refine le_min (div_nonneg (by positivity) (by positivity)) (by norm_num)
        have hq1 : min (((maxByFirst x xs).2 : ℚ) /
            ((((x :: xs).foldl (fun a p => a + p.2) 0 : Nat) : ℚ) + 1)) 1 ≤ 1 :=
          min_le_right _ _
        exact ⟨round2_nonneg _ hq0, round2_le_one _ hq1⟩

/-- Witness for C2 at the concrete text "happy": score 3, total 3,
confidence round2(3/4) = 0.75 which indeed lies in [0, 1]. -/
theorem C2_confidence_formula_and_bounds_witness :
    (detect_emotion "happy".toList).confidence =
      round2 (min ((maxScore "happy".toList : ℚ) /
        ((totalScore "happy".toList : ℚ) + 1)) 1)
    ∧ 0 ≤ (detect_emotion "happy".toList).confidence
    ∧ (detect_emotion "happy".toList).confidence ≤ 1 :=
  ⟨(C2_confidence_formula_and_bounds "happy".toList).1 (by decide),
   (C2_confidence_formula_and_bounds "happy".toList).2.1,
   (C2_confidence_formula_and_bounds "happy".toList).2.2⟩

/-! ### Catalog lookup lemmas -/

theorem dictGet_isSome_of_mem (mood : String) (h : mood ∈ get_all_moods) :
    ∃ l, dictGet mood = some l := by
  unfold get_all_moods at h
  obtain ⟨p, hp, hfst⟩ := List.mem_map.mp h
  have hsome : (song_database.find? (fun q => q.1 == mood)).isSome := by
    rw [List.find?_isSome]
    exact ⟨p, hp, by simp [hfst]⟩
  obtain ⟨q, hq⟩ := Option.isSome_iff_exists.mp hsome
  exact ⟨q.2, by unfold dictGet; rw [hq]; rfl⟩

/-- C4: for every mood that is a key of the catalog and every positive count,
`get_recommendations mood count` returns exactly min(count, length of the
catalog's list for that mood) entries, and they are the first entries of that
stored list in order (a list-prefix of the stored sequence, hence no padding
and no error when the list is shorter than count). -/
theorem C4_recommendations_are_catalog_head (mood : String) (count : Nat)
    (hmood : mood ∈ get_all_moods) (_hcount : 0 < count) :
    (get_recommendations mood count).length
        = min count ((dictGet mood).getD []).length
    ∧ get_recommendations mood count <+: (dictGet mood).getD [] := by
  obtain ⟨l, hl⟩ := dictGet_isSome_of_mem mood hmood
  unfold get_recommendations
  rw [hl]
  simp only [Option.getD_some]
  exact ⟨List.length_take count l, ⟨_, List.take_append_drop count l⟩⟩

/-- Witness for C4: the happy catalog has 5 entries, so asking for 7 returns
all 5, a prefix of the stored list. -/
theorem C4_recommendations_are_catalog_head_witness :
    (get_recommendations "happy" 7).length
        = min 7 ((dictGet "happy").getD []).length
    ∧ get_recommendations "happy" 7 <+: (dictGet "happy").getD [] :=
  C4_recommendations_are_catalog_head "happy" 7 (by decide) (by decide)

/-- C5: for every string mood that is not a key of the catalog and every
count, `get_recommendations mood count` returns exactly the same sequence as
`get_recommendations "calm" count` — silent substitution of the default
mood's entries, never a failure. -/
theorem C5_unknown_mood_fallback (mood : String) (count : Nat)
    (h : mood ∉ get_all_moods) :
    get_recommendations mood count = get_recommendations "calm" count := by
  unfold get_all_moods at h
  have hnone : song_database.find? (fun q => q.1 == mood) = none := by
    rw [List.find?_eq_none]
    intro q hq
    simp only [beq_iff_eq]
    intro hcon
    subst hcon
    exact h (List.mem_map_of_mem Prod.fst hq)
  unfold get_recommendations dictGet
  rw [hnone]
  rfl

/-- Witness for C5 at the concrete unknown mood of the specification. -/
theorem C5_unknown_mood_fallback_witness :
    get_recommendations "not-a-real-mood" 3 = get_recommendations "calm" 3 :=
  C5_unknown_mood_fallback "not-a-real-mood" 3 (by decide)

/-! ### Character-level lemmas for the normalization step -/

theorem toLower_isLower_of_isAlpha (c : Char)
    (h : (Char.toLower c).isAlpha = true) : (Char.toLower c).isLower = true := by
  have e65 : (UInt32.toBitVec 65).toNat = 65 := rfl
  have e90 : (UInt32.toBitVec 90).toNat = 90 := rfl
  have e97 : (UInt32.toBitVec 97).toNat = 97 := rfl
  have e122 : (UInt32.toBitVec 122).toNat = 122 := rfl
  unfold Char.toLower at *
  by_cases hc : c.toNat ≥ 65 ∧ c.toNat ≤ 90
  · rw [if_pos hc] at h ⊢
    have hv : (c.toNat + 32).isValidChar := Or.inl (by omega)
    unfold Char.ofNat at h ⊢
    rw [dif_pos hv] at h ⊢
    unfold Char.ofNatAux at h ⊢
    simp only [Char.isLower, Char.isUpper, Char.isAlpha, UInt32.le_def, BitVec.le_def,
      BitVec.toNat_ofNatLt, Bool.and_eq_true, decide_eq_true_eq] at h ⊢
    rw [e97, e122]
    omega
  · rw [if_neg hc] at h ⊢
    simp only [Char.isAlpha, Char.isUpper, Char.isLower, Bool.or_eq_true, Bool.and_eq_true,
      decide_eq_true_eq, UInt32.le_def, BitVec.le_def] at h ⊢
    rw [e97, e122]
    rw [e65, e90, e97, e122] at h
    have hval : c.val.toBitVec.toNat = c.toNat := rfl
    rw [hval] at h ⊢
    omega

/-- C6 (as stated) is false: inserting a punctuation character inside a
keyword preserves the letter/digit sequence of the text but changes the
classification, because normalization replaces the punctuation mark by a
space and keyword matching is substring containment on the normalized text.
Concretely, "ha.ppy" and "happy" have the same letter/digit sequence, yet
"happy" is classified happy while "ha.ppy" matches nothing and falls back
to calm. -/
theorem C6_counterexample :
    ("ha.ppy".toList.filter (fun c => c.isAlphanum)
        = "happy".toList.filter (fun c => c.isAlphanum))
    ∧ detect_emotion "ha.ppy".toList ≠ detect_emotion "happy".toList := by
  decide

/-- C6 (amended): `detect_emotion` depends on the input text only through its
normalized form (lowercased, with every non-word non-whitespace character
replaced by a space): any two texts with the same normalized text — which
covers every casing transform, and punctuation edits that leave the
normalized text unchanged, but not punctuation inserted inside a keyword —
classify identically, with the same mood, confidence, intensity and score
mapping; and the specification's example pair "I'm HAPPY!!" / "im happy"
does classify identically. -/
theorem C6_normalization_invariance :
    (∀ t₁ t₂ : List Char, text_clean t₁ = text_clean t₂ →
      detect_emotion t₁ = detect_emotion t₂)
    ∧ detect_emotion "I\x27m HAPPY!!".toList = detect_emotion "im happy".toList := by
  constructor
  · intro t₁ t₂ h
    unfold detect_emotion moodScores
    rw [h]
  · decide

/-- Witness for C6 (amended): "HAPPY!" and "happy." have the same normalized
text, so they classify identically. -/
theorem C6_normalization_invariance_witness :
    detect_emotion "HAPPY!".toList = detect_emotion "happy.".toList :=
  C6_normalization_invariance.1 "HAPPY!".toList "happy.".toList (by decide)

/-- C7 (as stated) is false: Python's `\w` class keeps the underscore, which
is neither a letter, a digit, nor whitespace, so normalization does not
replace it with a space. -/
theorem C7_counterexample :
    (¬ ('_'.isAlpha ∨ '_'.isDigit ∨ '_'.isWhitespace))
    ∧ text_clean ['_'] = ['_']
    ∧ text_clean ['_'] ≠ [' '] := by decide

/-- C7 (amended): the normalization step lowercases the input text and then
replaces every character that is not a letter, digit, underscore, or
whitespace with a single space, so the normalized text consists only of
lowercase letters, digits, underscores, and whitespace; the function is
total, so no input raises an error. -/
theorem C7_normalization (t : List Char) :
    text_clean t = (t.map Char.toLower).map
        (fun c => if (c.isAlphanum || c == '_') || c.isWhitespace then c else ' ')
    ∧ ∀ c ∈ text_clean t,
        c.isLower ∨ c.isDigit ∨ c = '_' ∨ c.isWhitespace := by
  refine ⟨rfl, ?_⟩
  intro c hc
  unfold text_clean stripPunct lowerText at hc
  rw [List.map_map] at hc
  obtain ⟨a, _, rfl⟩ := List.mem_map.mp hc
  simp only [Function.comp_apply]
  by_cases h1 : (isWordChar (Char.toLower a) || (Char.toLower a).isWhitespace) = true
  · rw [if_pos h1]
    rcases Bool.or_eq_true_iff.mp h1 with h2 | h2
    · unfold isWordChar at h2
      rcases Bool.or_eq_true_iff.mp h2 with h3 | h3
      · rcases Bool.or_eq_true_iff.mp h3 with h4 | h4
        · exact Or.inl (toLower_isLower_of_isAlpha a h4)
        · exact Or.inr (Or.inl h4)
      · exact Or.inr (Or.inr (Or.inl (by simpa using h3)))
    · exact Or.inr (Or.inr (Or.inr h2))
  · rw [if_neg h1]
    exact Or.inr (Or.inr (Or.inr (by decide)))

/-- Witness for C7 (amended) at the concrete text "A!": its normalized text
is "a ", and its first character is a lowercase letter. -/
theorem C7_normalization_witness :
    (text_clean "A!".toList = ("A!".toList.map Char.toLower).map
        (fun c => if (c.isAlphanum || c == '_') || c.isWhitespace then c else ' '))
    ∧ ('a'.isLower ∨ 'a'.isDigit ∨ 'a' = '_' ∨ 'a'.isWhitespace) :=
  ⟨(C7_normalization "A!".toList).1,
   (C7_normalization "A!".toList).2 'a' (by decide)⟩

/-- C9: the full pipeline on the concrete input
`analyze_and_recommend("I'm feeling so happy and excited today!", 3)` returns
detected mood "happy" and intensity "high" (the two primary keywords "happy"
and "excited" accumulate a score of 6, which is at least 5), with exactly 3
recommendation entries whose first entry is the first curated entry of the
happy catalog: Good Vibrations by The Beach Boys. -/
theorem C9_end_to_end :
    (analyze_and_recommend "I\x27m feeling so happy and excited today!".toList 3).detected_mood
        = "happy"
    ∧ (analyze_and_recommend "I\x27m feeling so happy and excited today!".toList 3).intensity
        = "high"
    ∧ maxScore "I\x27m feeling so happy and excited today!".toList = 6
    ∧ (analyze_and_recommend "I\x27m feeling so happy and excited today!".toList 3).recommendations.length
        = 3
    ∧ (analyze_and_recommend "I\x27m feeling so happy and excited today!".toList 3).recommendations.head?
        = some { title := "Good Vibrations", artist := "The Beach Boys", year := 1966,
                 genre := "Pop", energy := 0.8, valence := 0.9,
                 tags := ["Classic", "Feel-good", "Upbeat"] } := by
  refine ⟨by decide, by decide, by decide, by decide, by decide⟩

/-- C10: the key set of the emotion-keyword vocabulary equals the key set of
the song catalog (the same nine moods in the same declaration order), every
catalog mood maps to a non-empty song list, for every input text the mood
returned by `detect_emotion` is a key of the catalog, and consequently the
catalog lookup performed by `analyze_and_recommend` always finds the mood, so
the unknown-mood fallback branch of `get_recommendations` is never taken. -/
theorem C10_vocabulary_catalog_alignment :
    emotion_keywords.map Prod.fst = song_database.map Prod.fst
    ∧ song_database.all (fun p => !p.2.isEmpty)
    ∧ (∀ t : List Char, (detect_emotion t).emotion ∈ get_all_moods)
    ∧ (∀ t : List Char, (dictGet (detect_emotion t).emotion).isSome) := by
  have hkeys : emotion_keywords.map Prod.fst = song_database.map Prod.fst := by decide
  have hmem : ∀ t : List Char, (detect_emotion t).emotion ∈ get_all_moods := by
    intro t
    by_cases h : (moodScores t).all (fun p => p.2 == 0)
    · rw [detect_emotion_of_all_zero t h]
      show ("calm" : String) ∈ get_all_moods
      decide
    · cases hs : moodScores t with
      | nil => exact absurd hs (moodScores_ne_nil t)
      | cons x xs =>
        rw [detect_emotion_of_ne_zero t x xs hs h]
        have hm : maxByFirst x xs ∈ x :: xs := maxByFirst_mem x xs
        rw [← hs] at hm
        have h1 : (maxByFirst x xs).1 ∈ (moodScores t).map Prod.fst :=
          List.mem_map_of_mem Prod.fst hm
        rw [moodScores, List.map_map] at h1
        have h2 : (List.map (Prod.fst ∘ fun p => (p.1, moodScore (text_clean t) p.2))
            emotion_keywords) = emotion_keywords.map Prod.fst := by
          exact List.map_congr_left (fun p _ => rfl)
        rw [h2, hkeys] at h1
        exact h1
  refine ⟨hkeys, by decide, hmem, ?_⟩
  intro t
  have h := hmem t
  unfold get_all_moods at h
  obtain ⟨p, hp, hfst⟩ := List.mem_map.mp h
  have hfind : (song_database.find? (fun q => q.1 == (detect_emotion t).emotion)).isSome := by
    rw [List.find?_isSome]
    exact ⟨p, hp, by simp [hfst]⟩
  obtain ⟨q, hq⟩ := Option.isSome_iff_exists.mp hfind
  unfold dictGet
  rw [hq]
  rfl

end MoodTune
